import Mathlib

/-!
Shallow embedding of `src/scripts/init.py` (repository synchronizer).

The script is an asyncio orchestration of external `ssh` / `git`
subprocess calls.  We embed it as pure Lean functions over an abstract
environment `Env` that assigns to every subprocess invocation either a
raised exception or a completed process result (exit code, stdout,
stderr), and to every filesystem path an existence bit.  Each embedded
operation returns its result together with the ordered trace of
subprocess invocations it attempted, mirroring the source line by line.

Filesystem paths are modelled as lists of path components; `Path("..")
.resolve()` from a current working directory `cwd` is `cwd.dropLast`
(the resolved parent directory).

The `asyncio.Semaphore(5)` bounding concurrency is modelled separately
as a transition system (`SchedStep`) in which a task must consume a
permit to move from `idle` to `running` and returns the permit when its
subprocess chain finishes, exactly the `async with self.semaphore`
block wrapping the body of `process_repository`.
-/

namespace RepoSync

/-- Filesystem path, as its list of components. -/
abbrev Path := List String

/-- Result of awaiting a completed subprocess: its exit code and captured
output streams, as `process.communicate()` returns them (decoded). -/
structure ProcOutput where
  exitCode : Int
  stdout : String
  stderr : String
deriving DecidableEq

/-- Outcome of one subprocess invocation attempt: either some step of the
invocation raised a Python exception, or the process ran to completion
(possibly with a non-zero exit code). -/
inductive ProcResult
  | raised
  | completed (out : ProcOutput)
deriving DecidableEq

/-- Subprocess invocations the script can attempt, one constructor per
`create_subprocess_exec` call site in `init.py`. -/
inductive GitCmd
  | sshProbe
  | remoteGetUrl (cwd : Path)
  | fetch (cwd : Path)
  | revParseHead (cwd : Path)
  | pull (cwd : Path) (branch : String)
  | clone (url : String) (dest : Path)
deriving DecidableEq

/-- Commands that mutate the working tree or create directories:
`git fetch`, `git pull`, `git clone`.  The ssh probe, `git remote
get-url` and `git rev-parse` are read-only. -/
def GitCmd.isMutating : GitCmd → Bool
  | GitCmd.fetch _ => true
  | GitCmd.pull _ _ => true
  | GitCmd.clone _ _ => true
  | _ => false

/-- Predicate selecting `git clone` invocations. -/
def GitCmd.isClone : GitCmd → Bool
  | GitCmd.clone _ _ => true
  | _ => false

/-- Predicate selecting `git fetch` invocations. -/
def GitCmd.isFetch : GitCmd → Bool
  | GitCmd.fetch _ => true
  | _ => false

/-- Predicate selecting `git rev-parse --abbrev-ref HEAD` (branch lookup)
invocations. -/
def GitCmd.isBranchLookup : GitCmd → Bool
  | GitCmd.revParseHead _ => true
  | _ => false

/-- Predicate selecting `git pull` invocations. -/
def GitCmd.isPull : GitCmd → Bool
  | GitCmd.pull _ _ => true
  | _ => false

/-- Directory a command operates on: the `cwd` it runs in, or the
destination directory for `git clone`.  The ssh probe touches none. -/
def GitCmd.target : GitCmd → Option Path
  | GitCmd.sshProbe => none
  | GitCmd.remoteGetUrl p => some p
  | GitCmd.fetch p => some p
  | GitCmd.revParseHead p => some p
  | GitCmd.pull p _ => some p
  | GitCmd.clone _ p => some p

/-- Ambient world the script runs against: what each subprocess invocation
does, and which paths exist (`repo_path.exists()`). -/
structure Env where
  run : GitCmd → ProcResult
  pathExists : Path → Bool

/-- Repository descriptor; the synchronizer reads only `repo["name"]`, all
other configuration fields are opaque and never interpreted. -/
structure RepoDescriptor where
  name : String
deriving DecidableEq

/-- State of `ProjectInitializer` after `__init__`: configuration plus the
computed `base_dir`. -/
structure ProjectInitializer where
  project_name : String
  repo_org : String
  repositories : List RepoDescriptor
  base_dir : Path

/-- Concurrency bound from `asyncio.Semaphore(5)` in
`ProjectInitializer.__init__`. -/
def semaphoreLimit : Nat := 5

/-- Embedding of `ProjectInitializer.__init__`: stores the configuration
and sets `base_dir = Path("..").resolve()`, the resolved parent of the
current working directory. -/
def ProjectInitializer.init (project_name repo_org : String)
    (repositories : List RepoDescriptor) (cwd : Path) : ProjectInitializer :=
  { project_name := project_name
    repo_org := repo_org
    repositories := repositories
    base_dir := cwd.dropLast }

/-- ASCII lowering of one character, modelling Python `str.lower` on the
character range the script's marker scan depends on. -/
def charLower (c : Char) : Char :=
  if 65 ≤ c.toNat ∧ c.toNat ≤ 90 then Char.ofNat (c.toNat + 32) else c

/-- Python `str.lower`, as a character map over the text. -/
def pyLower (s : String) : String :=
  ⟨s.data.map charLower⟩

/-- Python `str.strip` with no argument: remove leading and trailing
whitespace. -/
def pyStrip (s : String) : String :=
  ⟨((s.data.dropWhile Char.isWhitespace).reverse.dropWhile Char.isWhitespace).reverse⟩

/-- Python substring membership `needle in hay`, checking whether `needle`
occurs contiguously in `hay`: helper testing a prefix. -/
def charsPrefix : List Char → List Char → Bool
  | [], _ => true
  | _ :: _, [] => false
  | a :: as, b :: bs => a == b && charsPrefix as bs

/-- Python substring membership `needle in hay` over character lists. -/
def charsContain (needle : List Char) : List Char → Bool
  | [] => needle.isEmpty
  | l@(_ :: t) => charsPrefix needle l || charsContain needle t

/-- Marker text scanned for in the ssh probe stderr. -/
def sshSuccessMarker : String := "successfully authenticated"

/-- Embedding of `verify_git_ssh`: run `ssh -T git@github.com`, and report
success iff the lowercased stderr text contains the marker substring
(Python `"successfully authenticated" in stderr.decode().lower()`); any
exception yields `false`.  Returns the result with the invocation trace. -/
def verify_git_ssh (env : Env) : Bool × List GitCmd :=
  match env.run GitCmd.sshProbe with
  | ProcResult.raised => (false, [GitCmd.sshProbe])
  | ProcResult.completed out =>
      (charsContain sshSuccessMarker.data (pyLower out.stderr).data, [GitCmd.sshProbe])

/-- Embedding of `check_remote`: run `git remote get-url origin` in
`repo_path`, strip the stdout text and compare it with `expected_remote`;
any exception yields `false`.  The exit code is never inspected. -/
def check_remote (env : Env) (repo_path : Path) (expected_remote : String) :
    Bool × List GitCmd :=
  match env.run (GitCmd.remoteGetUrl repo_path) with
  | ProcResult.raised => (false, [GitCmd.remoteGetUrl repo_path])
  | ProcResult.completed out =>
      (pyStrip out.stdout == expected_remote, [GitCmd.remoteGetUrl repo_path])

/-- Embedding of `update_repository`: `git fetch`, then `git rev-parse
--abbrev-ref HEAD` to read the current branch (stripped stdout), then
`git pull origin <branch>`, all in `repo_path`.  Fetch and pull results
are awaited but otherwise ignored (exit codes are never inspected);
any exception at any step yields `false` at that step. -/
def update_repository (env : Env) (repo_path : Path) : Bool × List GitCmd :=
  match env.run (GitCmd.fetch repo_path) with
  | ProcResult.raised => (false, [GitCmd.fetch repo_path])
  | ProcResult.completed _ =>
      match env.run (GitCmd.revParseHead repo_path) with
      | ProcResult.raised => (false, [GitCmd.fetch repo_path, GitCmd.revParseHead repo_path])
      | ProcResult.completed branchOut =>
          let current_branch := pyStrip branchOut.stdout
          match env.run (GitCmd.pull repo_path current_branch) with
          | ProcResult.raised =>
              (false, [GitCmd.fetch repo_path, GitCmd.revParseHead repo_path,
                GitCmd.pull repo_path current_branch])
          | ProcResult.completed _ =>
              (true, [GitCmd.fetch repo_path, GitCmd.revParseHead repo_path,
                GitCmd.pull repo_path current_branch])

/-- Embedding of `clone_repository`: run
`git clone git@github.com:<org>/<name>.git <repo_path>`; any exception
yields `false`, and the exit code is never inspected. -/
def clone_repository (env : Env) (self : ProjectInitializer)
    (repo_name : String) (repo_path : Path) : Bool × List GitCmd :=
  match env.run (GitCmd.clone
      ("git@github.com:" ++ self.repo_org ++ "/" ++ repo_name ++ ".git") repo_path) with
  | ProcResult.raised =>
      (false, [GitCmd.clone
        ("git@github.com:" ++ self.repo_org ++ "/" ++ repo_name ++ ".git") repo_path])
  | ProcResult.completed _ =>
      (true, [GitCmd.clone
        ("git@github.com:" ++ self.repo_org ++ "/" ++ repo_name ++ ".git") repo_path])

/-- Per-repository outcome as printed by `process_repository`. -/
inductive SyncOutcome
  | Cloned
  | Updated
  | RemoteMismatch
  | CloneFailed
  | UpdateFailed
deriving DecidableEq

/-- Embedding of the body of `process_repository` (the part inside
`async with self.semaphore`): compute the target path and expected remote
URL, then branch on path existence and remote match exactly as the
source does; returns the printed outcome with the invocation trace. -/
def process_repository (env : Env) (self : ProjectInitializer)
    (repo : RepoDescriptor) : SyncOutcome × List GitCmd :=
  let repo_name := repo.name
  let repo_path := self.base_dir ++ [repo_name]
  let expected_remote := "git@github.com:" ++ self.repo_org ++ "/" ++ repo_name ++ ".git"
  if env.pathExists repo_path then
    let chk := check_remote env repo_path expected_remote
    if chk.1 then
      let upd := update_repository env repo_path
      ((if upd.1 then SyncOutcome.Updated else SyncOutcome.UpdateFailed), chk.2 ++ upd.2)
    else
      (SyncOutcome.RemoteMismatch, chk.2)
  else
    let cln := clone_repository env self repo_name repo_path
    ((if cln.1 then SyncOutcome.Cloned else SyncOutcome.CloneFailed), cln.2)

/-- Embedding of `run`: verify ssh access, and on failure `sys.exit(1)`
without starting any repository task; otherwise process every repository
and finish with exit code 0 (individual outcomes never change the exit
code).  The trace concatenates per-task traces; the claims proved about
`run` do not depend on how `asyncio.gather` interleaves them. -/
def run (env : Env) (self : ProjectInitializer) : Nat × List GitCmd :=
  let v := verify_git_ssh env
  if v.1 then
    (0, v.2 ++ (self.repositories.map (fun r => (process_repository env self r).2)).flatten)
  else
    (1, v.2)

/-- Expected remote URL format, `git@<host>:<org>/<name>.git` with host
`github.com`, as computed by the f-strings in `process_repository` and
`clone_repository`. -/
def expectedRemote (org name : String) : String :=
  "git@github.com:" ++ org ++ "/" ++ name ++ ".git"

/-! Concurrency model of the `asyncio.Semaphore(5)` gate.  Every
repository task is spawned eagerly by `asyncio.gather` and immediately
blocks on `async with self.semaphore`; its subprocess chain (the body of
`process_repository`) runs only while it holds a permit, and the permit
is returned when the chain finishes.  A task is `idle` before acquiring,
`running k` while holding a permit with `k` suspension points of its
subprocess chain left, and `finished` after releasing. -/

/-- Lifecycle state of one repository task relative to the semaphore. -/
inductive TaskState
  | idle
  | running (remaining : Nat)
  | finished
deriving DecidableEq

/-- Truth of a task currently holding a semaphore permit, i.e. having an
in-flight subprocess chain. -/
def TaskState.inFlight : TaskState → Bool
  | TaskState.running _ => true
  | _ => false

/-- Global scheduler state: the per-task states and the number of free
semaphore permits. -/
structure SchedState where
  tasks : List TaskState
  avail : Nat
deriving DecidableEq

/-- Number of tasks whose subprocess chain is in flight. -/
def inFlightCount (s : SchedState) : Nat :=
  s.tasks.countP (fun t => t.inFlight)

/-- Interleaving semantics of the semaphore-gated tasks: a task may
acquire a free permit and start its chain, advance its chain by one
suspension point, or finish its chain and release the permit.  Acquiring
requires a free permit (`avail = a + 1`), exactly the blocking
`async with self.semaphore`. -/
inductive SchedStep : SchedState → SchedState → Prop
  | acquire (l r : List TaskState) (k a : Nat) :
      SchedStep ⟨l ++ TaskState.idle :: r, a + 1⟩ ⟨l ++ TaskState.running k :: r, a⟩
  | work (l r : List TaskState) (k a : Nat) :
      SchedStep ⟨l ++ TaskState.running (k + 1) :: r, a⟩ ⟨l ++ TaskState.running k :: r, a⟩
  | release (l r : List TaskState) (a : Nat) :
      SchedStep ⟨l ++ TaskState.running 0 :: r, a⟩ ⟨l ++ TaskState.finished :: r, a + 1⟩

/-- Initial scheduler state: `n` eagerly launched tasks all blocked on the
semaphore, all `limit` permits free. -/
def initSched (n limit : Nat) : SchedState :=
  ⟨List.replicate n TaskState.idle, limit⟩

/-! Concrete test fixtures used by witness and counterexample theorems. -/

/-- Initializer built from the script's configuration (one descriptor
kept), with current working directory `/home/dev/workspace`. -/
def selfDemo : ProjectInitializer :=
  ProjectInitializer.init "gcp-kubernetes" "HappyPathway"
    [⟨"terraform-gcp-storage"⟩] ["home", "dev", "workspace"]

/-- Environment in which every path exists and `git remote get-url origin`
reports a remote belonging to a different organization. -/
def envMismatch : Env :=
  { run := fun c =>
      match c with
      | GitCmd.remoteGetUrl _ =>
          ProcResult.completed ⟨0, "git@github.com:SomeoneElse/terraform-gcp-storage.git", ""⟩
      | _ => ProcResult.raised
    pathExists := fun _ => true }

/-- Environment in which no path exists and every subprocess raises. -/
def envAbsentRaise : Env :=
  { run := fun _ => ProcResult.raised
    pathExists := fun _ => false }

/-- Environment in which every path exists and every subprocess raises. -/
def envExistsRaise : Env :=
  { run := fun _ => ProcResult.raised
    pathExists := fun _ => true }

/-- Environment whose ssh probe exits with status 1 yet prints the
authentication marker (in mixed case) on stderr. -/
def envSshMarker : Env :=
  { run := fun c =>
      match c with
      | GitCmd.sshProbe => ProcResult.completed
          ⟨1, "", "Hi dev! You have Successfully Authenticated, but GitHub does not provide shell access."⟩
      | _ => ProcResult.raised
    pathExists := fun _ => true }

/-- Environment in which every subprocess completes with exit code 1 and
empty output, and no path exists: subprocesses fail by status, never by
exception. -/
def envNonzeroExit : Env :=
  { run := fun _ => ProcResult.completed ⟨1, "", ""⟩
    pathExists := fun _ => false }

/-- Environment in which the target path exists, the recorded remote
matches the expected URL for `selfDemo`, and `git fetch` raises. -/
def envFetchRaises : Env :=
  { run := fun c =>
      match c with
      | GitCmd.remoteGetUrl _ =>
          ProcResult.completed ⟨0, "git@github.com:HappyPathway/terraform-gcp-storage.git", ""⟩
      | _ => ProcResult.raised
    pathExists := fun _ => true }

/-- Environment for the happy update path of `selfDemo`: path exists,
recorded remote matches, and fetch, branch lookup and pull all complete. -/
def envHappyUpdate : Env :=
  { run := fun c =>
      match c with
      | GitCmd.remoteGetUrl _ =>
          ProcResult.completed ⟨0, "git@github.com:HappyPathway/terraform-gcp-storage.git", ""⟩
      | GitCmd.fetch _ => ProcResult.completed ⟨0, "", ""⟩
      | GitCmd.revParseHead _ => ProcResult.completed ⟨0, "main\n", ""⟩
      | GitCmd.pull _ _ => ProcResult.completed ⟨0, "Already up to date.", ""⟩
      | _ => ProcResult.raised
    pathExists := fun _ => true }

/-- Each scheduler step preserves the sum of in-flight tasks and free
permits. -/
theorem schedStep_inFlight_add_avail {s t : SchedState} (h : SchedStep s t) :
    inFlightCount t + t.avail = inFlightCount s + s.avail := by
  cases h with
  | acquire l r k a =>
      simp [inFlightCount, List.countP_append, List.countP_cons, TaskState.inFlight]
      omega
  | work l r k a =>
      simp [inFlightCount, List.countP_append, List.countP_cons, TaskState.inFlight]
  | release l r a =>
      simp [inFlightCount, List.countP_append, List.countP_cons, TaskState.inFlight]
      omega

/-- In every state reachable from the initial one, in-flight tasks plus
free permits equal the configured limit. -/
theorem reachable_inFlight_add_avail {n limit : Nat} {s : SchedState}
    (h : Relation.ReflTransGen SchedStep (initSched n limit) s) :
    inFlightCount s + s.avail = limit := by
  induction h with
  | refl =>
      simp [initSched, inFlightCount, List.countP_eq_zero, TaskState.inFlight]
  | tail _ hstep ih =>
      rw [schedStep_inFlight_add_avail hstep, ih]

/-! Helper lemmas about the embedded operations, shared by the claim
theorems below. -/

/-- Trace of the ssh verification is always the single probe call. -/
theorem verify_git_ssh_trace (env : Env) :
    (verify_git_ssh env).2 = [GitCmd.sshProbe] := by
  cases h : env.run GitCmd.sshProbe <;> simp [verify_git_ssh, h]

/-- Value of `check_remote` when the url read raises. -/
theorem check_remote_of_raised {env : Env} {p : Path} (e : String)
    (h : env.run (GitCmd.remoteGetUrl p) = ProcResult.raised) :
    check_remote env p e = (false, [GitCmd.remoteGetUrl p]) := by
  rw [check_remote, h]

/-- Value of `check_remote` when the url read completes. -/
theorem check_remote_of_completed {env : Env} {p : Path} {out : ProcOutput} (e : String)
    (h : env.run (GitCmd.remoteGetUrl p) = ProcResult.completed out) :
    check_remote env p e = (pyStrip out.stdout == e, [GitCmd.remoteGetUrl p]) := by
  rw [check_remote, h]

/-- Trace of `clone_repository` is always the single clone invocation of
the expected SSH URL into the target path. -/
theorem clone_repository_trace (env : Env) (self : ProjectInitializer)
    (n : String) (p : Path) :
    (clone_repository env self n p).2 =
      [GitCmd.clone (expectedRemote self.repo_org n) p] := by
  cases h : env.run (GitCmd.clone
      ("git@github.com:" ++ self.repo_org ++ "/" ++ n ++ ".git") p) with
  | raised => simp [clone_repository, h, expectedRemote]
  | completed out => simp [clone_repository, h, expectedRemote]

/-- The clone step reports failure exactly when its invocation raises;
exit codes are never consulted. -/
theorem clone_repository_false_iff (env : Env) (self : ProjectInitializer)
    (n : String) (p : Path) :
    (clone_repository env self n p).1 = false ↔
      env.run (GitCmd.clone (expectedRemote self.repo_org n) p) = ProcResult.raised := by
  cases h : env.run (GitCmd.clone
      ("git@github.com:" ++ self.repo_org ++ "/" ++ n ++ ".git") p) with
  | raised =>
      simp [clone_repository, h]
      rw [show expectedRemote self.repo_org n =
        "git@github.com:" ++ self.repo_org ++ "/" ++ n ++ ".git" from rfl]
      exact h
  | completed out =>
      simp [clone_repository, h]
      rw [show expectedRemote self.repo_org n =
        "git@github.com:" ++ self.repo_org ++ "/" ++ n ++ ".git" from rfl, h]
      simp

/-- Value of `update_repository` when all three invocations complete. -/
theorem update_repository_of_completed {env : Env} {p : Path}
    {fo bo po : ProcOutput}
    (hf : env.run (GitCmd.fetch p) = ProcResult.completed fo)
    (hb : env.run (GitCmd.revParseHead p) = ProcResult.completed bo)
    (hp : env.run (GitCmd.pull p (pyStrip bo.stdout)) = ProcResult.completed po) :
    update_repository env p = (true,
      [GitCmd.fetch p, GitCmd.revParseHead p, GitCmd.pull p (pyStrip bo.stdout)]) := by
  simp [update_repository, hf, hb, hp]

/-- The update step reports failure exactly when one of its three
invocations raises; exit codes are never consulted. -/
theorem update_repository_false_iff (env : Env) (p : Path) :
    (update_repository env p).1 = false ↔
      (env.run (GitCmd.fetch p) = ProcResult.raised ∨
       env.run (GitCmd.revParseHead p) = ProcResult.raised ∨
       ∃ b, env.run (GitCmd.revParseHead p) = ProcResult.completed b ∧
         env.run (GitCmd.pull p (pyStrip b.stdout)) = ProcResult.raised) := by
  cases hf : env.run (GitCmd.fetch p) with
  | raised => simp [update_repository, hf]
  | completed fo =>
      cases hb : env.run (GitCmd.revParseHead p) with
      | raised => simp [update_repository, hf, hb]
      | completed bo =>
          cases hp : env.run (GitCmd.pull p (pyStrip bo.stdout)) with
          | raised => simp [update_repository, hf, hb, hp]
          | completed po =>
              rw [update_repository_of_completed hf hb hp]
              simp only [Bool.true_eq_false, false_iff]
              push_neg
              refine ⟨by simp [hf], by simp [hb], ?_⟩
              intro b hbe
              injection hbe with hx
              subst hx
              simp [hp]

/-- Possible traces of `update_repository`: the fetch, branch lookup and
pull attempts in order, cut short at the first raising step. -/
theorem update_repository_trace_shape (env : Env) (p : Path) :
    (update_repository env p).2 = [GitCmd.fetch p] ∨
    (update_repository env p).2 = [GitCmd.fetch p, GitCmd.revParseHead p] ∨
    ∃ b, env.run (GitCmd.revParseHead p) = ProcResult.completed b ∧
      (update_repository env p).2 =
        [GitCmd.fetch p, GitCmd.revParseHead p, GitCmd.pull p (pyStrip b.stdout)] := by
  cases hf : env.run (GitCmd.fetch p) with
  | raised => simp [update_repository, hf]
  | completed fo =>
      cases hb : env.run (GitCmd.revParseHead p) with
      | raised => simp [update_repository, hf, hb]
      | completed bo =>
          refine Or.inr (Or.inr ⟨bo, rfl, ?_⟩)
          cases hp : env.run (GitCmd.pull p (pyStrip bo.stdout)) with
          | raised => simp [update_repository, hf, hb, hp]
          | completed po => simp [update_repository, hf, hb, hp]

/-- Value of `process_repository` when the target path is absent: the
result is decided by the single clone attempt. -/
theorem process_repository_of_absent {env : Env} {self : ProjectInitializer}
    {repo : RepoDescriptor}
    (hab : env.pathExists (self.base_dir ++ [repo.name]) = false) :
    process_repository env self repo =
      ((if (clone_repository env self repo.name (self.base_dir ++ [repo.name])).1
          then SyncOutcome.Cloned else SyncOutcome.CloneFailed),
        [GitCmd.clone (expectedRemote self.repo_org repo.name)
          (self.base_dir ++ [repo.name])]) := by
  rw [process_repository]
  simp only [hab, Bool.false_eq_true, if_false]
  rw [clone_repository_trace]

/-- Value of `process_repository` when the path exists and the remote
check fails: a bare mismatch report. -/
theorem process_repository_of_mismatch {env : Env} {self : ProjectInitializer}
    {repo : RepoDescriptor}
    (hex : env.pathExists (self.base_dir ++ [repo.name]) = true)
    (hchk : (check_remote env (self.base_dir ++ [repo.name])
      (expectedRemote self.repo_org repo.name)).1 = false) :
    process_repository env self repo =
      (SyncOutcome.RemoteMismatch,
        [GitCmd.remoteGetUrl (self.base_dir ++ [repo.name])]) := by
  rw [process_repository]
  simp only [hex, if_true]
  rw [show ("git@github.com:" ++ self.repo_org ++ "/" ++ repo.name ++ ".git") =
    expectedRemote self.repo_org repo.name from rfl]
  simp only [hchk, Bool.false_eq_true, if_false]
  cases hr : env.run (GitCmd.remoteGetUrl (self.base_dir ++ [repo.name])) with
  | raised => rw [check_remote_of_raised _ hr]
  | completed out => rw [check_remote_of_completed _ hr]

/-- Value of `process_repository` when the path exists and the remote
check succeeds: the result is decided by the update sequence. -/
theorem process_repository_of_match {env : Env} {self : ProjectInitializer}
    {repo : RepoDescriptor}
    (hex : env.pathExists (self.base_dir ++ [repo.name]) = true)
    (hchk : (check_remote env (self.base_dir ++ [repo.name])
      (expectedRemote self.repo_org repo.name)).1 = true) :
    process_repository env self repo =
      ((if (update_repository env (self.base_dir ++ [repo.name])).1
          then SyncOutcome.Updated else SyncOutcome.UpdateFailed),
        GitCmd.remoteGetUrl (self.base_dir ++ [repo.name]) ::
          (update_repository env (self.base_dir ++ [repo.name])).2) := by
  rw [process_repository]
  simp only [hex, if_true]
  rw [show ("git@github.com:" ++ self.repo_org ++ "/" ++ repo.name ++ ".git") =
    expectedRemote self.repo_org repo.name from rfl]
  simp only [hchk, if_true]
  cases hr : env.run (GitCmd.remoteGetUrl (self.base_dir ++ [repo.name])) with
  | raised =>
      rw [check_remote_of_raised (expectedRemote self.repo_org repo.name) hr] at hchk
      cases hchk
  | completed out =>
      rw [check_remote_of_completed _ hr]
      simp

/-- Appending the same string on the right is injective. -/
theorem string_append_right_cancel {s t u : String} (h : s ++ u = t ++ u) : s = t := by
  apply String.ext
  have h2 := congrArg String.data h
  simp only [String.data_append] at h2
  exact List.append_cancel_right h2

/-- Appending the same string on the left is injective. -/
theorem string_append_left_cancel {s t u : String} (h : s ++ t = s ++ u) : t = u := by
  apply String.ext
  have h2 := congrArg String.data h
  simp only [String.data_append] at h2
  exact List.append_cancel_left h2

/-- C1: when the target path exists and the recorded origin remote differs
from the expected URL, `process_repository` reports `RemoteMismatch`, its
whole trace is the single read-only `git remote get-url origin` call, and
it attempts no mutating git operation (no fetch, no pull, no clone), so
the directory is left unmodified. -/
theorem c1_remote_mismatch_is_pure_report (env : Env) (self : ProjectInitializer)
    (repo : RepoDescriptor) (out : ProcOutput)
    (hex : env.pathExists (self.base_dir ++ [repo.name]) = true)
    (hrun : env.run (GitCmd.remoteGetUrl (self.base_dir ++ [repo.name])) =
      ProcResult.completed out)
    (hne : pyStrip out.stdout ≠ expectedRemote self.repo_org repo.name) :
    (process_repository env self repo).1 = SyncOutcome.RemoteMismatch ∧
    (process_repository env self repo).2 =
      [GitCmd.remoteGetUrl (self.base_dir ++ [repo.name])] ∧
    (process_repository env self repo).2.filter (fun c => c.isMutating) = [] := by
  have hchk : check_remote env (self.base_dir ++ [repo.name])
      ("git@github.com:" ++ self.repo_org ++ "/" ++ repo.name ++ ".git") =
      (false, [GitCmd.remoteGetUrl (self.base_dir ++ [repo.name])]) := by
    rw [check_remote, hrun]
    simp only [Prod.mk.injEq, and_true]
    exact beq_eq_false_iff_ne.mpr hne
  simp [process_repository, hex, hchk, GitCmd.isMutating]

/-- Closed instance of the remote-mismatch frame theorem on a concrete
environment. -/
theorem c1_remote_mismatch_is_pure_report_witness :
    envMismatch.pathExists (selfDemo.base_dir ++ ["terraform-gcp-storage"]) = true ∧
    (process_repository envMismatch selfDemo ⟨"terraform-gcp-storage"⟩).1 =
      SyncOutcome.RemoteMismatch :=
  ⟨rfl,
    (c1_remote_mismatch_is_pure_report envMismatch selfDemo ⟨"terraform-gcp-storage"⟩
      ⟨0, "git@github.com:SomeoneElse/terraform-gcp-storage.git", ""⟩
      rfl rfl (by decide)).1⟩

/-- C5: when the target path does not exist, the trace of
`process_repository` is exactly one clone of the expected SSH URL into
the target path: one clone attempt, and no fetch, branch lookup or pull
attempt. -/
theorem c5_absent_path_means_single_clone (env : Env) (self : ProjectInitializer)
    (repo : RepoDescriptor)
    (hab : env.pathExists (self.base_dir ++ [repo.name]) = false) :
    (process_repository env self repo).2 =
      [GitCmd.clone (expectedRemote self.repo_org repo.name)
        (self.base_dir ++ [repo.name])] ∧
    (process_repository env self repo).2.countP (fun c => c.isClone) = 1 ∧
    (process_repository env self repo).2.countP (fun c => c.isFetch) = 0 ∧
    (process_repository env self repo).2.countP (fun c => c.isBranchLookup) = 0 ∧
    (process_repository env self repo).2.countP (fun c => c.isPull) = 0 := by
  have htr : (process_repository env self repo).2 =
      [GitCmd.clone (expectedRemote self.repo_org repo.name)
        (self.base_dir ++ [repo.name])] := by
    cases hc : env.run (GitCmd.clone
        ("git@github.com:" ++ self.repo_org ++ "/" ++ repo.name ++ ".git")
        (self.base_dir ++ [repo.name])) with
    | raised => simp [process_repository, hab, clone_repository, hc, expectedRemote]
    | completed out => simp [process_repository, hab, clone_repository, hc, expectedRemote]
  refine ⟨htr, ?_, ?_, ?_, ?_⟩ <;>
    simp [htr, GitCmd.isClone, GitCmd.isFetch, GitCmd.isBranchLookup, GitCmd.isPull]

/-- Closed instance of the absent-path clone theorem: the clone-raising
environment still records exactly one clone attempt. -/
theorem c5_absent_path_means_single_clone_witness :
    (Env.mk (fun _ => ProcResult.raised) (fun _ => false)).pathExists
      (selfDemo.base_dir ++ ["terraform-gcp-storage"]) = false ∧
    (process_repository (Env.mk (fun _ => ProcResult.raised) (fun _ => false))
        selfDemo ⟨"terraform-gcp-storage"⟩).2 =
      [GitCmd.clone (expectedRemote "HappyPathway" "terraform-gcp-storage")
        (selfDemo.base_dir ++ ["terraform-gcp-storage"])] :=
  ⟨rfl,
    (c5_absent_path_means_single_clone
      (Env.mk (fun _ => ProcResult.raised) (fun _ => false))
      selfDemo ⟨"terraform-gcp-storage"⟩ rfl).1⟩

/-- C8: the ssh verification result is exactly the substring scan of the
lowercased stderr text for the authentication-success marker — the exit
status of the probe plays no role in the formula — and a raised
exception during the probe yields `false`. -/
theorem c8_ssh_verdict_from_stderr_scan (env : Env) :
    (∀ out, env.run GitCmd.sshProbe = ProcResult.completed out →
      (verify_git_ssh env).1 =
        charsContain sshSuccessMarker.data (pyLower out.stderr).data) ∧
    (env.run GitCmd.sshProbe = ProcResult.raised → (verify_git_ssh env).1 = false) := by
  constructor
  · intro out hout
    simp [verify_git_ssh, hout]
  · intro hraise
    simp [verify_git_ssh, hraise]

/-- Closed instance of the stderr-scan theorem: a probe that exits with
status 1 but prints the marker on stderr verifies successfully. -/
theorem c8_ssh_verdict_from_stderr_scan_witness :
    (Env.mk (fun _ => ProcResult.completed
        ⟨1, "", "Hi dev! You have Successfully Authenticated, but GitHub does not provide shell access."⟩)
      (fun _ => true)).run GitCmd.sshProbe = ProcResult.completed
        ⟨1, "", "Hi dev! You have Successfully Authenticated, but GitHub does not provide shell access."⟩ ∧
    (verify_git_ssh (Env.mk (fun _ => ProcResult.completed
        ⟨1, "", "Hi dev! You have Successfully Authenticated, but GitHub does not provide shell access."⟩)
      (fun _ => true))).1 = true := by
  refine ⟨rfl, ?_⟩
  rw [(c8_ssh_verdict_from_stderr_scan (Env.mk (fun _ => ProcResult.completed
        ⟨1, "", "Hi dev! You have Successfully Authenticated, but GitHub does not provide shell access."⟩)
      (fun _ => true))).1
    ⟨1, "", "Hi dev! You have Successfully Authenticated, but GitHub does not provide shell access."⟩ rfl]
  decide

/-- C9: when the target path exists but running `git remote get-url
origin` raises, `check_remote` returns `false` and `process_repository`
reports `RemoteMismatch` — not an update or clone failure — while
attempting no mutating git operation. -/
theorem c9_remote_read_failure_reports_mismatch (env : Env)
    (self : ProjectInitializer) (repo : RepoDescriptor)
    (hex : env.pathExists (self.base_dir ++ [repo.name]) = true)
    (hraise : env.run (GitCmd.remoteGetUrl (self.base_dir ++ [repo.name])) =
      ProcResult.raised) :
    (check_remote env (self.base_dir ++ [repo.name])
      (expectedRemote self.repo_org repo.name)).1 = false ∧
    (process_repository env self repo).1 = SyncOutcome.RemoteMismatch ∧
    (process_repository env self repo).2.filter (fun c => c.isMutating) = [] := by
  have hchk : check_remote env (self.base_dir ++ [repo.name])
      ("git@github.com:" ++ self.repo_org ++ "/" ++ repo.name ++ ".git") =
      (false, [GitCmd.remoteGetUrl (self.base_dir ++ [repo.name])]) := by
    rw [check_remote, hraise]
  refine ⟨?_, ?_⟩
  · rw [show expectedRemote self.repo_org repo.name =
      "git@github.com:" ++ self.repo_org ++ "/" ++ repo.name ++ ".git" from rfl, hchk]
  · simp [process_repository, hex, hchk, GitCmd.isMutating]

/-- Closed instance of the remote-read-failure theorem on an environment
whose every subprocess raises. -/
theorem c9_remote_read_failure_reports_mismatch_witness :
    (Env.mk (fun _ => ProcResult.raised) (fun _ => true)).pathExists
      (selfDemo.base_dir ++ ["terraform-gcp-storage"]) = true ∧
    (process_repository (Env.mk (fun _ => ProcResult.raised) (fun _ => true))
        selfDemo ⟨"terraform-gcp-storage"⟩).1 = SyncOutcome.RemoteMismatch :=
  ⟨rfl,
    (c9_remote_read_failure_reports_mismatch
      (Env.mk (fun _ => ProcResult.raised) (fun _ => true))
      selfDemo ⟨"terraform-gcp-storage"⟩ rfl rfl).2.1⟩

/-- C3: the exit code of `run` is non-zero (namely 1) exactly when the ssh
verification fails; on failure the whole trace is the single ssh probe
(no repository task runs any subprocess), and on success the exit code is
0 regardless of individual repository outcomes. -/
theorem c3_exit_code_iff_ssh_failure (env : Env) (self : ProjectInitializer) :
    ((run env self).1 ≠ 0 ↔ (verify_git_ssh env).1 = false) ∧
    ((verify_git_ssh env).1 = false → run env self = (1, [GitCmd.sshProbe])) ∧
    ((verify_git_ssh env).1 = true → (run env self).1 = 0) := by
  have htr := verify_git_ssh_trace env
  cases hv : (verify_git_ssh env).1 with
  | false =>
      refine ⟨?_, fun _ => ?_, fun h => ?_⟩
      · simp [run, hv]
      · simp [run, hv, htr]
      · simp at h
  | true =>
      refine ⟨?_, fun h => ?_, fun _ => ?_⟩
      · simp [run, hv]
      · simp at h
      · simp [run, hv]

/-- Closed instance of the exit-code theorem: with a raising ssh probe the
process exits with code 1 after the probe alone. -/
theorem c3_exit_code_iff_ssh_failure_witness :
    (verify_git_ssh envExistsRaise).1 = false ∧
    run envExistsRaise selfDemo = (1, [GitCmd.sshProbe]) :=
  ⟨rfl, (c3_exit_code_iff_ssh_failure envExistsRaise selfDemo).2.1 rfl⟩

/-- Any clone invocation occurring in a `process_repository` trace carries
the expected remote URL for that descriptor. -/
theorem process_repository_clone_url (env : Env) (self : ProjectInitializer)
    (repo : RepoDescriptor) (url : String) (dest : Path)
    (hc : GitCmd.clone url dest ∈ (process_repository env self repo).2) :
    url = expectedRemote self.repo_org repo.name := by
  by_cases hex : env.pathExists (self.base_dir ++ [repo.name]) = true
  · cases hchk : (check_remote env (self.base_dir ++ [repo.name])
        (expectedRemote self.repo_org repo.name)).1 with
    | false =>
        rw [process_repository_of_mismatch hex hchk] at hc
        simp at hc
    | true =>
        rw [process_repository_of_match hex hchk] at hc
        simp only [List.mem_cons] at hc
        rcases hc with hc | hc
        · exact absurd hc (by simp)
        · rcases update_repository_trace_shape env (self.base_dir ++ [repo.name])
            with h | h | ⟨b, _, h⟩ <;> rw [h] at hc <;> simp at hc
  · have hab : env.pathExists (self.base_dir ++ [repo.name]) = false := by
      simpa using hex
    rw [process_repository_of_absent hab] at hc
    simp only [List.mem_singleton, GitCmd.clone.injEq] at hc
    exact hc.1

/-- Every command in a `process_repository` trace targets exactly the
directory `base_dir / name` of its descriptor. -/
theorem process_repository_target (env : Env) (self : ProjectInitializer)
    (repo : RepoDescriptor) (c : GitCmd)
    (hc : c ∈ (process_repository env self repo).2) :
    GitCmd.target c = some (self.base_dir ++ [repo.name]) := by
  by_cases hex : env.pathExists (self.base_dir ++ [repo.name]) = true
  · cases hchk : (check_remote env (self.base_dir ++ [repo.name])
        (expectedRemote self.repo_org repo.name)).1 with
    | false =>
        rw [process_repository_of_mismatch hex hchk] at hc
        simp only [List.mem_singleton] at hc
        subst hc
        rfl
    | true =>
        rw [process_repository_of_match hex hchk] at hc
        simp only [List.mem_cons] at hc
        rcases hc with rfl | hc
        · rfl
        · rcases update_repository_trace_shape env (self.base_dir ++ [repo.name])
            with h | h | ⟨b, _, h⟩
          · rw [h] at hc
            simp only [List.mem_singleton] at hc
            subst hc
            rfl
          · rw [h] at hc
            simp only [List.mem_cons, List.mem_nil_iff, or_false] at hc
            rcases hc with rfl | rfl <;> rfl
          · rw [h] at hc
            simp only [List.mem_cons, List.mem_nil_iff, or_false] at hc
            rcases hc with rfl | rfl | rfl <;> rfl
  · have hab : env.pathExists (self.base_dir ++ [repo.name]) = false := by
      simpa using hex
    rw [process_repository_of_absent hab] at hc
    simp only [List.mem_singleton] at hc
    subst hc
    rfl

/-- C7: the expected remote URL is the deterministic function
`git@github.com:<org>/<name>.git` of the organization and repository
name; with the other argument fixed, changing the organization or the
name changes the URL; every clone uses exactly this URL, and the
mismatch verdict compares the recorded remote against exactly this URL. -/
theorem c7_expected_remote_url_shape :
    (∀ org n, expectedRemote org n =
      "git@github.com:" ++ org ++ "/" ++ n ++ ".git") ∧
    (∀ org org2 n, org ≠ org2 →
      expectedRemote org n ≠ expectedRemote org2 n) ∧
    (∀ org n n2, n ≠ n2 →
      expectedRemote org n ≠ expectedRemote org n2) ∧
    (∀ (env : Env) (self : ProjectInitializer) (repo : RepoDescriptor)
        (url : String) (dest : Path),
      GitCmd.clone url dest ∈ (process_repository env self repo).2 →
      url = expectedRemote self.repo_org repo.name) ∧
    (∀ (env : Env) (self : ProjectInitializer) (repo : RepoDescriptor)
        (out : ProcOutput),
      env.pathExists (self.base_dir ++ [repo.name]) = true →
      env.run (GitCmd.remoteGetUrl (self.base_dir ++ [repo.name])) =
        ProcResult.completed out →
      ((process_repository env self repo).1 = SyncOutcome.RemoteMismatch ↔
        pyStrip out.stdout ≠ expectedRemote self.repo_org repo.name)) := by
  refine ⟨fun org n => rfl, ?_, ?_, ?_, ?_⟩
  · intro org org2 n hne heq
    have h1 := string_append_right_cancel heq
    have h2 := string_append_right_cancel h1
    have h3 := string_append_right_cancel h2
    exact hne (string_append_left_cancel h3)
  · intro org n n2 hne heq
    have h1 := string_append_right_cancel heq
    exact hne (string_append_left_cancel h1)
  · exact process_repository_clone_url
  · intro env self repo out hex hrun
    have hchk := check_remote_of_completed
      (expectedRemote self.repo_org repo.name) hrun
    cases hb : (pyStrip out.stdout == expectedRemote self.repo_org repo.name) with
    | true =>
        have hchk1 : (check_remote env (self.base_dir ++ [repo.name])
            (expectedRemote self.repo_org repo.name)).1 = true := by
          rw [hchk, hb]
        rw [process_repository_of_match hex hchk1]
        have heq := beq_iff_eq.mp hb
        cases hu : (update_repository env (self.base_dir ++ [repo.name])).1 <;>
          simp [hu, heq]
    | false =>
        have hchk1 : (check_remote env (self.base_dir ++ [repo.name])
            (expectedRemote self.repo_org repo.name)).1 = false := by
          rw [hchk, hb]
        rw [process_repository_of_mismatch hex hchk1]
        have hne := beq_eq_false_iff_ne.mp hb
        simp [hne]

/-- Closed instance of the URL-shape theorem: distinct organizations give
distinct URLs, and the clone command recorded for an absent path carries
the expected URL. -/
theorem c7_expected_remote_url_shape_witness :
    expectedRemote "HappyPathway" "terraform-gcp-storage" ≠
      expectedRemote "SomeoneElse" "terraform-gcp-storage" ∧
    "git@github.com:HappyPathway/terraform-gcp-storage.git" =
      expectedRemote selfDemo.repo_org "terraform-gcp-storage" :=
  ⟨c7_expected_remote_url_shape.2.1 "HappyPathway" "SomeoneElse"
      "terraform-gcp-storage" (by decide),
    c7_expected_remote_url_shape.2.2.2.1 envAbsentRaise selfDemo
      ⟨"terraform-gcp-storage"⟩
      "git@github.com:HappyPathway/terraform-gcp-storage.git"
      (selfDemo.base_dir ++ ["terraform-gcp-storage"]) (by decide)⟩

/-- C2 counterexample: in an environment where every subprocess completes
with exit code 1 — a failure status but no exception — the clone is
reported as `Cloned`, not `CloneFailed`: a non-zero exit code is not
converted to a failure outcome, refuting the claim as stated. -/
theorem c2_counterexample_nonzero_exit_ignored :
    envNonzeroExit.run (GitCmd.clone
      (expectedRemote "HappyPathway" "terraform-gcp-storage")
      (selfDemo.base_dir ++ ["terraform-gcp-storage"])) =
        ProcResult.completed ⟨1, "", ""⟩ ∧
    envNonzeroExit.pathExists (selfDemo.base_dir ++ ["terraform-gcp-storage"]) = false ∧
    (process_repository envNonzeroExit selfDemo ⟨"terraform-gcp-storage"⟩).1 =
      SyncOutcome.Cloned :=
  ⟨rfl, rfl, rfl⟩

/-- C2 amended: any raised exception at any step of the update sequence is
caught and converted to `UpdateFailed`, and a raised clone is converted to
`CloneFailed`; the embedded task is a total function, so no exception
propagates past it.  Non-zero exit codes, by contrast, are never
inspected and do not produce a failure outcome. -/
theorem c2_amended_exception_to_failure_outcome (env : Env)
    (self : ProjectInitializer) (repo : RepoDescriptor) :
    (env.pathExists (self.base_dir ++ [repo.name]) = true →
      (check_remote env (self.base_dir ++ [repo.name])
        (expectedRemote self.repo_org repo.name)).1 = true →
      (env.run (GitCmd.fetch (self.base_dir ++ [repo.name])) = ProcResult.raised ∨
       env.run (GitCmd.revParseHead (self.base_dir ++ [repo.name])) = ProcResult.raised ∨
       ∃ b, env.run (GitCmd.revParseHead (self.base_dir ++ [repo.name])) =
          ProcResult.completed b ∧
         env.run (GitCmd.pull (self.base_dir ++ [repo.name]) (pyStrip b.stdout)) =
          ProcResult.raised) →
      (process_repository env self repo).1 = SyncOutcome.UpdateFailed) ∧
    (env.pathExists (self.base_dir ++ [repo.name]) = false →
      env.run (GitCmd.clone (expectedRemote self.repo_org repo.name)
        (self.base_dir ++ [repo.name])) = ProcResult.raised →
      (process_repository env self repo).1 = SyncOutcome.CloneFailed) := by
  constructor
  · intro hex hchk hraise
    rw [process_repository_of_match hex hchk]
    have hu : (update_repository env (self.base_dir ++ [repo.name])).1 = false :=
      (update_repository_false_iff env (self.base_dir ++ [repo.name])).mpr hraise
    simp [hu]
  · intro hab hraise
    rw [process_repository_of_absent hab]
    have hcl : (clone_repository env self repo.name (self.base_dir ++ [repo.name])).1 = false :=
      (clone_repository_false_iff env self repo.name (self.base_dir ++ [repo.name])).mpr hraise
    simp [hcl]

/-- Closed instance of the exception-containment theorem: a raising fetch
yields `UpdateFailed`, a raising clone yields `CloneFailed`. -/
theorem c2_amended_exception_to_failure_outcome_witness :
    (process_repository envFetchRaises selfDemo ⟨"terraform-gcp-storage"⟩).1 =
      SyncOutcome.UpdateFailed ∧
    (process_repository envAbsentRaise selfDemo ⟨"terraform-gcp-storage"⟩).1 =
      SyncOutcome.CloneFailed :=
  ⟨(c2_amended_exception_to_failure_outcome envFetchRaises selfDemo
      ⟨"terraform-gcp-storage"⟩).1 rfl (by decide) (Or.inl rfl),
   (c2_amended_exception_to_failure_outcome envAbsentRaise selfDemo
      ⟨"terraform-gcp-storage"⟩).2 rfl rfl⟩

/-- C6 counterexample: in `envFetchRaises` the target path exists and the
recorded origin remote equals the expected URL — the claim's
precondition — yet the sequence stops at the raising fetch: the trace
contains no pull at all, refuting the unconditional
one-fetch-one-lookup-one-pull shape. -/
theorem c6_counterexample_raise_cuts_sequence :
    envFetchRaises.pathExists (selfDemo.base_dir ++ ["terraform-gcp-storage"]) = true ∧
    envFetchRaises.run (GitCmd.remoteGetUrl
      (selfDemo.base_dir ++ ["terraform-gcp-storage"])) = ProcResult.completed
        ⟨0, "git@github.com:HappyPathway/terraform-gcp-storage.git", ""⟩ ∧
    pyStrip "git@github.com:HappyPathway/terraform-gcp-storage.git" =
      expectedRemote selfDemo.repo_org "terraform-gcp-storage" ∧
    (process_repository envFetchRaises selfDemo ⟨"terraform-gcp-storage"⟩).2.countP
      (fun c => c.isPull) = 0 :=
  ⟨rfl, rfl, by decide, by decide⟩

/-- C6 amended: when the target path exists, the recorded remote equals
the expected URL, and fetch, branch lookup and pull all complete without
raising, the trace is exactly one remote read, one fetch, one branch
lookup and one pull of the recorded branch, in order; and whenever the
target path exists — even when a step raises and the sequence stops
early — no clone is ever attempted. -/
theorem c6_amended_update_sequence (env : Env) (self : ProjectInitializer)
    (repo : RepoDescriptor) :
    (∀ out fo bo po,
      env.pathExists (self.base_dir ++ [repo.name]) = true →
      env.run (GitCmd.remoteGetUrl (self.base_dir ++ [repo.name])) =
        ProcResult.completed out →
      pyStrip out.stdout = expectedRemote self.repo_org repo.name →
      env.run (GitCmd.fetch (self.base_dir ++ [repo.name])) =
        ProcResult.completed fo →
      env.run (GitCmd.revParseHead (self.base_dir ++ [repo.name])) =
        ProcResult.completed bo →
      env.run (GitCmd.pull (self.base_dir ++ [repo.name]) (pyStrip bo.stdout)) =
        ProcResult.completed po →
      (process_repository env self repo).2 =
        [GitCmd.remoteGetUrl (self.base_dir ++ [repo.name]),
         GitCmd.fetch (self.base_dir ++ [repo.name]),
         GitCmd.revParseHead (self.base_dir ++ [repo.name]),
         GitCmd.pull (self.base_dir ++ [repo.name]) (pyStrip bo.stdout)]) ∧
    (env.pathExists (self.base_dir ++ [repo.name]) = true →
      (process_repository env self repo).2.countP (fun c => c.isClone) = 0) := by
  constructor
  · intro out fo bo po hex hrun heq hf hb hp
    have hchk1 : (check_remote env (self.base_dir ++ [repo.name])
        (expectedRemote self.repo_org repo.name)).1 = true := by
      rw [check_remote_of_completed (expectedRemote self.repo_org repo.name) hrun]
      exact beq_iff_eq.mpr heq
    rw [process_repository_of_match hex hchk1,
      update_repository_of_completed hf hb hp]
  · intro hex
    cases hchk : (check_remote env (self.base_dir ++ [repo.name])
        (expectedRemote self.repo_org repo.name)).1 with
    | false =>
        rw [process_repository_of_mismatch hex hchk]
        simp [GitCmd.isClone]
    | true =>
        rw [process_repository_of_match hex hchk]
        rcases update_repository_trace_shape env (self.base_dir ++ [repo.name])
          with h | h | ⟨b, _, h⟩ <;> rw [h] <;>
          simp [List.countP_cons, GitCmd.isClone]

/-- Closed instance of the update-sequence theorem on the happy-path
environment. -/
theorem c6_amended_update_sequence_witness :
    (process_repository envHappyUpdate selfDemo ⟨"terraform-gcp-storage"⟩).2 =
      [GitCmd.remoteGetUrl (selfDemo.base_dir ++ ["terraform-gcp-storage"]),
       GitCmd.fetch (selfDemo.base_dir ++ ["terraform-gcp-storage"]),
       GitCmd.revParseHead (selfDemo.base_dir ++ ["terraform-gcp-storage"]),
       GitCmd.pull (selfDemo.base_dir ++ ["terraform-gcp-storage"])
         (pyStrip "main\n")] :=
  (c6_amended_update_sequence envHappyUpdate selfDemo ⟨"terraform-gcp-storage"⟩).1
    ⟨0, "git@github.com:HappyPathway/terraform-gcp-storage.git", ""⟩
    ⟨0, "", ""⟩ ⟨0, "main\n", ""⟩ ⟨0, "Already up to date.", ""⟩
    rfl rfl (by decide) rfl rfl rfl

/-- C4: in every scheduler state reachable from `n` eagerly launched tasks
gated by a counting semaphore with `limit` permits (the script uses
`limit = semaphoreLimit = 5`), at most `limit` tasks have an in-flight
subprocess chain, for any task count `n` at least `limit`. -/
theorem c4_at_most_limit_chains_in_flight (n limit : Nat) (s : SchedState)
    (_hsize : limit ≤ n)
    (hreach : Relation.ReflTransGen SchedStep (initSched n limit) s) :
    inFlightCount s ≤ limit := by
  have h := reachable_inFlight_add_avail hreach
  omega

/-- Closed instance of the semaphore bound: six tasks, one of which has
acquired a permit and started its chain, stay within the limit of 5. -/
theorem c4_at_most_limit_chains_in_flight_witness :
    semaphoreLimit ≤ 6 ∧
    inFlightCount ⟨TaskState.running 3 :: List.replicate 5 TaskState.idle, 4⟩ ≤
      semaphoreLimit :=
  ⟨by decide,
    c4_at_most_limit_chains_in_flight 6 semaphoreLimit
      ⟨TaskState.running 3 :: List.replicate 5 TaskState.idle, 4⟩ (by decide)
      (Relation.ReflTransGen.single
        (SchedStep.acquire [] (List.replicate 5 TaskState.idle) 3 4))⟩

/-- C10: `__init__` fixes the base directory to the resolved parent of the
current working directory; every command a repository task attempts
targets exactly `base_dir / name`, and every command in a whole `run`
trace is either the ssh probe or targets `base_dir / name` for one of the
configured descriptors. -/
theorem c10_all_targets_under_base_dir (pn org : String)
    (repos : List RepoDescriptor) (cwd : Path) (env : Env) :
    (ProjectInitializer.init pn org repos cwd).base_dir = cwd.dropLast ∧
    (∀ (repo : RepoDescriptor) (c : GitCmd),
      c ∈ (process_repository env (ProjectInitializer.init pn org repos cwd) repo).2 →
      GitCmd.target c = some (cwd.dropLast ++ [repo.name])) ∧
    (∀ c, c ∈ (run env (ProjectInitializer.init pn org repos cwd)).2 →
      c = GitCmd.sshProbe ∨
      ∃ repo, repo ∈ repos ∧
        GitCmd.target c = some (cwd.dropLast ++ [repo.name])) := by
  refine ⟨rfl, ?_, ?_⟩
  · intro repo c hc
    exact process_repository_target env (ProjectInitializer.init pn org repos cwd) repo c hc
  · intro c hc
    cases hv : (verify_git_ssh env).1 with
    | false =>
        rw [run] at hc
        simp only [hv, Bool.false_eq_true, if_false] at hc
        rw [verify_git_ssh_trace] at hc
        simp only [List.mem_singleton] at hc
        exact Or.inl hc
    | true =>
        rw [run] at hc
        simp only [hv, if_true] at hc
        rw [verify_git_ssh_trace] at hc
        rcases List.mem_append.mp hc with h1 | h2
        · simp only [List.mem_singleton] at h1
          exact Or.inl h1
        · rcases List.mem_flatten.mp h2 with ⟨l, hl, hcl⟩
          rcases List.mem_map.mp hl with ⟨repo, hrepo, rfl⟩
          exact Or.inr ⟨repo, hrepo,
            process_repository_target env (ProjectInitializer.init pn org repos cwd) repo c hcl⟩

/-- Closed instance of the base-directory theorem: the base directory of
the demo initializer is the parent of its working directory, and the
clone recorded for an absent path targets `base_dir / name`. -/
theorem c10_all_targets_under_base_dir_witness :
    (ProjectInitializer.init "gcp-kubernetes" "HappyPathway"
      [⟨"terraform-gcp-storage"⟩] ["home", "dev", "workspace"]).base_dir =
      ["home", "dev"] ∧
    GitCmd.target (GitCmd.clone (expectedRemote "HappyPathway" "terraform-gcp-storage")
      (["home", "dev"] ++ ["terraform-gcp-storage"])) =
      some (["home", "dev"] ++ ["terraform-gcp-storage"]) :=
  ⟨(c10_all_targets_under_base_dir "gcp-kubernetes" "HappyPathway"
      [⟨"terraform-gcp-storage"⟩] ["home", "dev", "workspace"] envAbsentRaise).1,
    (c10_all_targets_under_base_dir "gcp-kubernetes" "HappyPathway"
      [⟨"terraform-gcp-storage"⟩] ["home", "dev", "workspace"] envAbsentRaise).2.1
      ⟨"terraform-gcp-storage"⟩
      (GitCmd.clone (expectedRemote "HappyPathway" "terraform-gcp-storage")
        (["home", "dev"] ++ ["terraform-gcp-storage"]))
      (by decide)⟩

end RepoSync
